import Mathlib

/-!
Verification development for the streaming ingestion and state-reconstruction
layer of the triage client: the SSE event dispatcher (`connectSSE` in the api
module), the per-event handlers installed by the intake form (`handleSubmit`
in `PatientForm`), and the zustand session store (`triageStore.js`).

JavaScript values flowing through this layer are modelled by `JsonVal`
(JSON numbers are modelled as integers; no claim depends on fractional
values).  `JSON.parse` is an external library call, modelled abstractly by
`WireData`: a wire payload string either parses to a definite `JsonVal` or
throws.  Handler exceptions are modelled by a `Bool` flag returned next to
the updated state: `true` means the handler threw, carrying the state as
mutated up to the throw point.
-/

namespace Triage

/-- A parsed JSON value (the result of a successful JSON.parse). -/
inductive JsonVal where
  | null : JsonVal
  | bool : Bool → JsonVal
  | num : Int → JsonVal
  | str : String → JsonVal
  | arr : List JsonVal → JsonVal
  | obj : List (String × JsonVal) → JsonVal


/-- JavaScript truthiness of a defined value: null, false, 0 and the empty
string are falsy; arrays and objects are truthy. -/
def truthy : JsonVal → Bool
  | .null => false
  | .bool b => b
  | .num n => n != 0
  | .str s => s != ""
  | .arr _ => true
  | .obj _ => true

/-- Truthiness of a possibly-undefined value (`none` is `undefined`). -/
def truthyOpt : Option JsonVal → Bool
  | none => false
  | some v => truthy v

/-- The JavaScript `a || b` operator on a possibly-undefined left operand. -/
def jsOr (o : Option JsonVal) (dflt : JsonVal) : JsonVal :=
  match o with
  | some v => if truthy v then v else dflt
  | none => dflt

/-- First binding of a key in a parsed object (JSON.parse output carries each
key at most once). -/
def lookupField : List (String × JsonVal) → String → Option JsonVal
  | [], _ => none
  | (k, v) :: fs, k2 => if k = k2 then some v else lookupField fs k2

/-- Property access `v.k` on a parsed value: defined only on objects; on any
other value the named property is `undefined` (the code never reads `length`
or other built-in properties through this path except via `jsLength`). -/
def JsonVal.getField : JsonVal → String → Option JsonVal
  | .obj fs, k => lookupField fs k
  | _, _ => none

/-- Optional chaining `o?.k`: short-circuits to `undefined` on `undefined`
and on `null`, otherwise plain property access. -/
def optChain (o : Option JsonVal) (k : String) : Option JsonVal :=
  match o with
  | none => none
  | some .null => none
  | some v => v.getField k

/-- The `length` read performed by `data.departments?.length`: array length,
string length, or a literal `length` field of an object. -/
def jsLength : JsonVal → Option JsonVal
  | .arr xs => some (.num xs.length)
  | .str s => some (.num s.length)
  | .obj fs => lookupField fs "length"
  | _ => none

/-- Optional chaining for the `length` read: `o?.length`. -/
def optChainLength (o : Option JsonVal) : Option JsonVal :=
  match o with
  | none => none
  | some .null => none
  | some v => jsLength v

mutual
/-- JavaScript `String(v)` as used by template-literal interpolation. -/
def jsString : JsonVal → String
  | .null => "null"
  | .bool b => cond b "true" "false"
  | .num n => toString n
  | .str s => s
  | .arr xs => jsArrString xs
  | .obj _ => "[object Object]"

/-- An array element under `Array.prototype.toString`: null prints empty. -/
def jsArrElem : JsonVal → String
  | .null => ""
  | .bool b => cond b "true" "false"
  | .num n => toString n
  | .str s => s
  | .arr xs => jsArrString xs
  | .obj _ => "[object Object]"

/-- `Array.prototype.toString`: elements joined with commas. -/
def jsArrString : List JsonVal → String
  | [] => ""
  | [x] => jsArrElem x
  | x :: xs => jsArrElem x ++ "," ++ jsArrString xs
end

/-- Template-literal interpolation of a possibly-undefined value. -/
def jsTemplate : Option JsonVal → String
  | none => "undefined"
  | some v => jsString v

/-- A payload string on the wire, together with the behaviour of the external
JSON.parse call on it: either it parses to a definite value or it throws. -/
inductive WireData where
  | parsed : String → JsonVal → WireData
  | unparsable : String → WireData


/-- The raw payload text (`e.data`). -/
def WireData.text : WireData → String
  | .parsed t _ => t
  | .unparsable t => t

/-- The result of `JSON.parse(e.data)`: `none` means the parse threw. -/
def WireData.parse : WireData → Option JsonVal
  | .parsed _ v => some v
  | .unparsable _ => none

/-- One decoded server-sent event: its event type and its payload data. -/
structure Frame where
  eventType : String
  data : WireData


/-- The value a handler receives: the parsed payload, or the raw text
fallback when JSON.parse threw. -/
inductive Value where
  | json : JsonVal → Value
  | raw : String → Value


/-- Property access on a handler argument: parsed objects have their fields;
a raw-text string has no `phase`, `message`, ... properties. -/
def Value.getField : Value → String → Option JsonVal
  | .json v, k => v.getField k
  | .raw _, _ => none

/-- Whether the handler argument is the JSON value null.  Property access on
null throws a TypeError, so handlers that read a property of `data` throw at
that point when fed a payload that parsed to null. -/
def Value.isNull : Value → Bool
  | .json .null => true
  | _ => false

/-- One entry of the `streamEvents` log: the object literal passed to
`addStreamEvent` (fields absent from the literal are `none`) plus the
`ts` timestamp the store stamps on it. -/
structure StreamEvent where
  type : String
  message : Option JsonVal
  phase : Option JsonVal
  ts : Nat


/-- The object literal a handler passes to `addStreamEvent`, before the
store adds the timestamp. -/
structure EventInput where
  type : String
  message : Option JsonVal
  phase : Option JsonVal


/-- The zustand triage store state (`triageStore.js`). -/
structure TriageState where
  classification : Option Value
  specialists : List Value
  otherSpecialty : Option Value
  verdict : Option Value
  streamEvents : List StreamEvent
  phase : JsonVal
  isTriaging : Bool
  sessionId : Option String
  patientData : Option JsonVal


/-- The store initial state. -/
def initialState : TriageState :=
  { classification := none
    specialists := []
    otherSpecialty := none
    verdict := none
    streamEvents := []
    phase := .str "idle"
    isTriaging := false
    sessionId := none
    patientData := none }

def setClassification (c : Value) (st : TriageState) : TriageState :=
  { st with classification := some c }

def addSpecialist (s : Value) (st : TriageState) : TriageState :=
  { st with specialists := st.specialists ++ [s] }

def setOtherSpecialty (o : Value) (st : TriageState) : TriageState :=
  { st with otherSpecialty := some o }

def setVerdict (v : Value) (st : TriageState) : TriageState :=
  { st with verdict := some v }

/-- addStreamEvent spreads the event literal and stamps `ts: Date.now()`;
the ambient clock value is passed in as `now`. -/
def addStreamEvent (e : EventInput) (now : Nat) (st : TriageState) : TriageState :=
  { st with streamEvents := st.streamEvents ++ [⟨e.type, e.message, e.phase, now⟩] }

def setPhase (p : JsonVal) (st : TriageState) : TriageState :=
  { st with phase := p }

def setIsTriaging (b : Bool) (st : TriageState) : TriageState :=
  { st with isTriaging := b }

def setSessionId (id : String) (st : TriageState) : TriageState :=
  { st with sessionId := some id }

def setPatientData (d : JsonVal) (st : TriageState) : TriageState :=
  { st with patientData := some d }

/-- The store reset action. -/
def reset (_st : TriageState) : TriageState := initialState

/-- A handler as installed through `connectSSE`: from the payload value and
the current store state to the state as mutated up to return or throw, and
a flag telling whether the handler threw. -/
def Handler (σ : Type) : Type := Value → σ → σ × Bool


/-- The `status` handler installed by the intake form:
setPhase(data.phase or the fallback string), then append a status entry to
the stream-event log.  On a payload that parsed to null the property read
`data.phase` throws before any mutation. -/
def statusHandler (now : Nat) : Handler TriageState := fun d st =>
  if d.isNull then (st, true)
  else
    (addStreamEvent ⟨"status", d.getField "message", d.getField "phase"⟩ now
      (setPhase (jsOr (d.getField "phase") (.str "processing")) st), false)

/-- The `classification_result` handler: setClassification(data) then log a
formatted message.  On a null payload the message template throws at
`data.prediction` after the classification was already stored. -/
def classificationHandler (now : Nat) : Handler TriageState := fun d st =>
  if d.isNull then (setClassification d st, true)
  else
    (addStreamEvent
      ⟨"classification",
        some (.str ("Classification: "
          ++ jsTemplate (optChain (d.getField "prediction") "risk_level")
          ++ " (" ++ jsTemplate (optChain (d.getField "prediction") "max_confidence")
          ++ "% confidence)")),
        none⟩ now
      (setClassification d st), false)

/-- The `specialist_opinion` handler: addSpecialist(data) then log a
formatted message.  On a null payload the template throws at
`data.specialty` after the opinion was already appended. -/
def specialistHandler (now : Nat) : Handler TriageState := fun d st =>
  if d.isNull then (addSpecialist d st, true)
  else
    (addStreamEvent
      ⟨"specialist",
        some (.str (jsTemplate (d.getField "specialty") ++ ": "
          ++ jsTemplate (optChain (d.getField "data") "one_liner"))),
        none⟩ now
      (addSpecialist d st), false)

/-- The `other_specialty_scores` handler: setOtherSpecialty(data) then log a
formatted message.  On a null payload the template throws at
`data.departments` after the annotation was already stored. -/
def otherSpecialtyHandler (now : Nat) : Handler TriageState := fun d st =>
  if d.isNull then (setOtherSpecialty d st, true)
  else
    (addStreamEvent
      ⟨"other",
        some (.str ("Other specialties evaluated: "
          ++ jsString (jsOr (optChainLength (d.getField "departments")) (.num 0))
          ++ " departments")),
        none⟩ now
      (setOtherSpecialty d st), false)

/-- The `cmo_verdict` handler: setVerdict(data) then log a formatted
message.  On a null payload the template throws at `data.final_risk_level`
after the verdict was already stored. -/
def verdictHandler (now : Nat) : Handler TriageState := fun d st =>
  if d.isNull then (setVerdict d st, true)
  else
    (addStreamEvent
      ⟨"verdict",
        some (.str ("Verdict: " ++ jsTemplate (d.getField "final_risk_level")
          ++ " — " ++ jsTemplate (d.getField "recommended_action"))),
        none⟩ now
      (setVerdict d st), false)

/-- The `complete` handler: ignores its argument; setPhase("complete"),
setIsTriaging(false), log a fixed message.  Never throws. -/
def completeHandler (now : Nat) : Handler TriageState := fun _ st =>
  (addStreamEvent ⟨"complete", some (.str "Triage complete"), none⟩ now
    (setIsTriaging false (setPhase (.str "complete") st)), false)

/-- The `error` handler: setPhase("error"), setIsTriaging(false), log
data.message with a fallback.  On a null payload the read `data.message`
throws after the phase and triaging flag were already set. -/
def errorHandler (now : Nat) : Handler TriageState := fun d st =>
  if d.isNull then (setIsTriaging false (setPhase (.str "error") st), true)
  else
    (addStreamEvent
      ⟨"error", some (jsOr (d.getField "message") (.str "An error occurred")), none⟩ now
      (setIsTriaging false (setPhase (.str "error") st)), false)

/-- The handlers object the intake form passes to connectSSE, with the
ambient clock value threaded in. -/
def part4Handlers (now : Nat) : String → Option (Handler TriageState)
  | "status" => some (statusHandler now)
  | "classification_result" => some (classificationHandler now)
  | "specialist_opinion" => some (specialistHandler now)
  | "other_specialty_scores" => some (otherSpecialtyHandler now)
  | "cmo_verdict" => some (verdictHandler now)
  | "complete" => some (completeHandler now)
  | "error" => some (errorHandler now)
  | _ => none

/-- The fixed list of event types connectSSE adds a listener for. -/
def events : List String :=
  ["status", "classification_result", "specialist_opinion",
   "other_specialty_scores", "cmo_verdict", "complete", "error"]

/-- One listener invocation as installed by connectSSE, for a frame whose
event type is in `events`.  Mirrors
`try { const data = JSON.parse(e.data); handlers[evt]?.(data) }
 catch { handlers[evt]?.(e.data) }`:
a parse failure, or a throw from the first handler call, lands in the catch
block, which invokes the handler with the raw payload text; a throw from
that second call escapes the listener.  A frame whose type has no listener
is not delivered at all.  Returns the new state and the list of payload
values the handler was invoked with, in order. -/
def dispatchFrame {σ : Type} (H : String → Option (Handler σ)) (f : Frame) (st : σ) :
    σ × List Value :=
  if f.eventType ∈ events then
    match H f.eventType with
    | none => (st, [])
    | some h =>
      match f.data.parse with
      | some v =>
        let r := h (.json v) st
        if r.2 then
          let r2 := h (.raw f.data.text) r.1
          (r2.1, [.json v, .raw f.data.text])
        else (r.1, [.json v])
      | none =>
        let r := h (.raw f.data.text) st
        (r.1, [.raw f.data.text])
  else (st, [])

/-- Deliver a list of frames in order.  Per the browser event-dispatch
model an exception escaping one listener invocation is reported globally
and does not stop delivery of later events, so each frame is processed
regardless of what earlier listeners did.  Returns the final state and the
concatenated invocation traces. -/
def dispatch {σ : Type} (H : String → Option (Handler σ)) : List Frame → σ → σ × List Value
  | [], st => (st, [])
  | f :: fs, st =>
    let r := dispatchFrame H f st
    let r2 := dispatch H fs r.1
    (r2.1, r.2 ++ r2.2)

/-- Run the intake-form handler set over a list of frames against the
store, with Date.now() modelled as a clock that ticks once per frame. -/
def runPart4 : List Frame → Nat → TriageState → TriageState
  | [], _, st => st
  | f :: fs, now, st => runPart4 fs (now + 1) (dispatchFrame (part4Handlers now) f st).1

/-- The synthetic payload connectSSE fabricates on a transport failure. -/
def syntheticErrorPayload : JsonVal := .obj [("message", .str "SSE connection lost")]

/-- Behaviour of es.onerror: invoke the registered error handler with the
synthetic payload, then close the event source.
Returns the new state and whether the source was closed (es.close() is
skipped only if the error handler itself throws). -/
def onError {σ : Type} (H : String → Option (Handler σ)) (st : σ) : σ × Bool :=
  match H "error" with
  | none => (st, true)
  | some h =>
    let r := h (.json syntheticErrorPayload) st
    (r.1, !r.2)

/-- Position of a phase label in the total order of the spec state machine
(section 4.3): idle < init < classification < specialist_council <
cmo_synthesis < complete; values outside the vocabulary have no position. -/
def phaseIdx : JsonVal → Option Nat
  | .str "idle" => some 0
  | .str "init" => some 1
  | .str "classification" => some 2
  | .str "specialist_council" => some 3
  | .str "cmo_synthesis" => some 4
  | .str "complete" => some 5
  | _ => none

/-- Whether phase label p is strictly earlier than q in the total order. -/
def phaseEarlier (p q : JsonVal) : Bool :=
  match phaseIdx p, phaseIdx q with
  | some i, some j => decide (i < j)
  | _, _ => false

/-- Modelled from the spec: the session `terminated` flag (true once a
`complete` or `error` frame has been observed).  The store keeps no such
field, so it is derived here as an observation on the stream-event log,
which records every complete and error event the handlers saw. -/
def TriageState.terminated (st : TriageState) : Bool :=
  st.streamEvents.any (fun e => e.type == "complete" || e.type == "error")


/-- A specialist_opinion frame with the given payload data. -/
def specFrame (d : WireData) : Frame := ⟨"specialist_opinion", d⟩

/-- The value the handler receives for a frame: the parsed payload, or the
raw text fallback when the parse threw. -/
def arrivedValue : WireData → Value
  | .parsed _ v => .json v
  | .unparsable t => .raw t

/-- A handler over a counter state that increments and then throws on every
invocation; used to probe the fault-isolation path of the dispatcher. -/
def throwingHandler : Handler Nat := fun _ n => (n + 1, true)

/-- Claim C1 as stated: a status frame carrying a phase label strictly
earlier than the current phase in the total order leaves the phase
unchanged. -/
def claimC1 : Prop :=
  ∀ (st : TriageState) (now : Nat) (t : String) (v p : JsonVal),
    v.getField "phase" = some p →
    phaseEarlier p st.phase = true →
    ((dispatchFrame (part4Handlers now) ⟨"status", .parsed t v⟩ st).1).phase = st.phase

/-- Claim C2 as stated: once a complete or error frame has been dispatched,
no subsequently dispatched frame changes classification, opinions
(specialists), verdict, or phase. -/
def claimC2 : Prop :=
  ∀ (st : TriageState) (now later : Nat) (tf f : Frame),
    (tf.eventType = "complete" ∨ tf.eventType = "error") →
    ((dispatchFrame (part4Handlers later) f
        (dispatchFrame (part4Handlers now) tf st).1).1).classification
      = ((dispatchFrame (part4Handlers now) tf st).1).classification ∧
    ((dispatchFrame (part4Handlers later) f
        (dispatchFrame (part4Handlers now) tf st).1).1).specialists
      = ((dispatchFrame (part4Handlers now) tf st).1).specialists ∧
    ((dispatchFrame (part4Handlers later) f
        (dispatchFrame (part4Handlers now) tf st).1).1).verdict
      = ((dispatchFrame (part4Handlers now) tf st).1).verdict ∧
    ((dispatchFrame (part4Handlers later) f
        (dispatchFrame (part4Handlers now) tf st).1).1).phase
      = ((dispatchFrame (part4Handlers now) tf st).1).phase

/-- Claim C3 as stated: complete forces phase complete and error forces
phase error, unconditionally; and once the phase is terminal, every further
frame leaves the phase unchanged. -/
def claimC3 : Prop :=
  (∀ (st : TriageState) (now : Nat) (d : WireData),
    ((dispatchFrame (part4Handlers now) ⟨"complete", d⟩ st).1).phase = .str "complete") ∧
  (∀ (st : TriageState) (now : Nat) (d : WireData),
    ((dispatchFrame (part4Handlers now) ⟨"error", d⟩ st).1).phase = .str "error") ∧
  (∀ (st : TriageState) (now : Nat) (f : Frame),
    (st.phase = .str "complete" ∨ st.phase = .str "error") →
    ((dispatchFrame (part4Handlers now) f st).1).phase = st.phase)

/-- Claim C4 as stated (invocation-count part): a frame whose event type has
a registered handler causes exactly one handler invocation. -/
def claimC4 : Prop :=
  ∀ (H : String → Option (Handler Nat)) (f : Frame) (h : Handler Nat) (st : Nat),
    f.eventType ∈ events → H f.eventType = some h →
    ((dispatchFrame H f st).2).length = 1

/-- Claim C8 as stated: a sequence of specialist_opinion frames dispatched
to a fresh session yields one opinion per frame, in arrival order,
regardless of payload content. -/
def claimC8 : Prop :=
  ∀ (ds : List WireData) (now : Nat),
    (runPart4 (ds.map specFrame) now initialState).specialists = ds.map arrivedValue

@[simp] theorem isNull_json_null : (Value.json .null).isNull = true := rfl

@[simp] theorem isNull_json_bool (b : Bool) : (Value.json (.bool b)).isNull = false := rfl

@[simp] theorem isNull_json_num (n : Int) : (Value.json (.num n)).isNull = false := rfl

@[simp] theorem isNull_json_str (s : String) : (Value.json (.str s)).isNull = false := rfl

@[simp] theorem isNull_json_arr (xs : List JsonVal) : (Value.json (.arr xs)).isNull = false := rfl

@[simp] theorem isNull_json_obj (fs : List (String × JsonVal)) :
    (Value.json (.obj fs)).isNull = false := rfl

@[simp] theorem isNull_raw (s : String) : (Value.raw s).isNull = false := rfl

theorem jsOr_of_not_truthy {o : Option JsonVal} {d : JsonVal}
    (h : truthyOpt o = false) : jsOr o d = d := by
  cases o with
  | none => rfl
  | some v => simp [truthyOpt] at h; simp [jsOr, h]

theorem isNull_json_of_ne {v : JsonVal} (h : v ≠ .null) :
    (Value.json v).isNull = false := by
  cases v
  · exact absurd rfl h
  all_goals rfl

/-- Claim C1, counterexample: with the session at phase classification, a
status frame labelled init — strictly earlier in the total order — is
adopted rather than ignored, so the monotonicity guard the spec describes
does not exist in the code. -/
theorem C1_counterexample : ¬ claimC1 := by
  intro h
  have hc := h { initialState with phase := .str "classification" } 0 "x"
      (.obj [("phase", .str "init")]) (.str "init") rfl rfl
  have hr : ((dispatchFrame (part4Handlers 0)
      ⟨"status", .parsed "x" (.obj [("phase", .str "init")])⟩
      { initialState with phase := .str "classification" }).1).phase = .str "init" := rfl
  rw [hr] at hc
  simp at hc

/-- Claim C1, amended: the status handler adopts the incoming phase label
unconditionally — the new phase is the phase field of the parsed payload
when truthy and the string "processing" otherwise (also when the payload
parsed to null or failed to parse), with no comparison against the current
phase; the frame is still appended to the stream-event log. -/
theorem C1_theorem :
    ∀ (st : TriageState) (now : Nat) (d : WireData),
      ((dispatchFrame (part4Handlers now) ⟨"status", d⟩ st).1).phase =
        (match d with
         | .parsed _ .null => .str "processing"
         | .parsed _ v => jsOr (v.getField "phase") (.str "processing")
         | .unparsable _ => .str "processing") ∧
      ((dispatchFrame (part4Handlers now) ⟨"status", d⟩ st).1).streamEvents.length
        = st.streamEvents.length + 1 := by
  intro st now d
  cases d with
  | parsed t v =>
    cases v <;>
      simp [dispatchFrame, part4Handlers, statusHandler, Value.isNull, setPhase,
        addStreamEvent, WireData.parse, WireData.text, Value.getField, events, jsOr]
  | unparsable t =>
    simp [dispatchFrame, part4Handlers, statusHandler, Value.isNull, setPhase,
      addStreamEvent, WireData.parse, WireData.text, Value.getField, events, jsOr]

/-- Claim C2, counterexample: after a complete frame, a later
classification_result frame still overwrites classification (from none to
the new payload), so session state is not frozen at termination. -/
theorem C2_counterexample : ¬ claimC2 := by
  intro h
  have hc := (h initialState 0 1 ⟨"complete", .parsed "x" (.obj [])⟩
      ⟨"classification_result", .parsed "y" (.obj [("prediction", .null)])⟩
      (Or.inl rfl)).1
  have hl : ((dispatchFrame (part4Handlers 1)
      ⟨"classification_result", .parsed "y" (.obj [("prediction", .null)])⟩
      (dispatchFrame (part4Handlers 0) ⟨"complete", .parsed "x" (.obj [])⟩
        initialState).1).1).classification
      = some (.json (.obj [("prediction", .null)])) := rfl
  have hr : ((dispatchFrame (part4Handlers 0) ⟨"complete", .parsed "x" (.obj [])⟩
      initialState).1).classification = none := rfl
  rw [hl, hr] at hc
  simp at hc

/-- Claim C2, amended: the store has no termination guard; after a complete
or error frame, a later classification_result frame still overwrites
classification, a specialist_opinion frame still appends to specialists, a
cmo_verdict frame still overwrites verdict, a status frame with a truthy
phase label still changes phase, and every such frame is still appended to
the stream-event log. -/
theorem C2_theorem :
    ∀ (st : TriageState) (now later : Nat) (tf : Frame) (t u w : String)
      (v p vd : JsonVal),
      (tf.eventType = "complete" ∨ tf.eventType = "error") →
      v ≠ .null → vd ≠ .null → truthy p = true →
      (((dispatchFrame (part4Handlers later) ⟨"classification_result", .parsed t v⟩
          (dispatchFrame (part4Handlers now) tf st).1).1).classification
        = some (.json v)) ∧
      (((dispatchFrame (part4Handlers later) ⟨"specialist_opinion", .parsed t v⟩
          (dispatchFrame (part4Handlers now) tf st).1).1).specialists
        = ((dispatchFrame (part4Handlers now) tf st).1).specialists ++ [.json v]) ∧
      (((dispatchFrame (part4Handlers later) ⟨"cmo_verdict", .parsed w vd⟩
          (dispatchFrame (part4Handlers now) tf st).1).1).verdict
        = some (.json vd)) ∧
      (((dispatchFrame (part4Handlers later) ⟨"status", .parsed u (.obj [("phase", p)])⟩
          (dispatchFrame (part4Handlers now) tf st).1).1).phase = p) ∧
      (((dispatchFrame (part4Handlers later) ⟨"classification_result", .parsed t v⟩
          (dispatchFrame (part4Handlers now) tf st).1).1).streamEvents.length
        = ((dispatchFrame (part4Handlers now) tf st).1).streamEvents.length + 1) := by
  intro st now later tf t u w v p vd htf hv hvd hp
  refine ⟨?_, ?_, ?_, ?_, ?_⟩ <;>
    simp [dispatchFrame, part4Handlers, classificationHandler, specialistHandler,
      verdictHandler, statusHandler, isNull_json_of_ne hv, isNull_json_of_ne hvd,
      setClassification, addSpecialist, setVerdict, setPhase, addStreamEvent,
      WireData.parse, WireData.text, Value.getField, JsonVal.getField, lookupField,
      events, jsOr, hp]

/-- Claim C2, witness: concrete instance of the amended claim — after a
complete frame, a classification frame overwrites classification and a
status frame moves the phase to init. -/
theorem C2_witness :
    (((dispatchFrame (part4Handlers 1) ⟨"classification_result", .parsed "y" (.obj [])⟩
        (dispatchFrame (part4Handlers 0) ⟨"complete", .parsed "x" (.obj [])⟩
          initialState).1).1).classification
      = some (.json (.obj []))) ∧
    (((dispatchFrame (part4Handlers 1) ⟨"status", .parsed "z" (.obj [("phase", .str "init")])⟩
        (dispatchFrame (part4Handlers 0) ⟨"complete", .parsed "x" (.obj [])⟩
          initialState).1).1).phase
      = .str "init") := by
  have h := C2_theorem initialState 0 1 ⟨"complete", .parsed "x" (.obj [])⟩
      "y" "z" "w" (.obj []) (.str "init") (.obj []) (Or.inl rfl)
      (by simp) (by simp) (by simp [truthy])
  exact ⟨h.1, h.2.2.2.1⟩

/-- Claim C3, counterexample: from the terminal phase complete, a status
frame labelled init moves the phase back to init, so terminal phases are
not absorbing. -/
theorem C3_counterexample : ¬ claimC3 := by
  rintro ⟨-, -, h⟩
  have hc := h { initialState with phase := .str "complete" } 0
      ⟨"status", .parsed "x" (.obj [("phase", .str "init")])⟩ (Or.inl rfl)
  have hl : ((dispatchFrame (part4Handlers 0)
      ⟨"status", .parsed "x" (.obj [("phase", .str "init")])⟩
      { initialState with phase := .str "complete" }).1).phase = .str "init" := rfl
  rw [hl] at hc
  simp at hc

/-- Claim C3, amended: a complete frame forces phase complete and an error
frame forces phase error, unconditionally from any prior phase and for any
payload; but neither terminal phase is absorbing — from phase complete a
later status frame labelled init moves the phase to init. -/
theorem C3_theorem :
    ∀ (st : TriageState) (now : Nat) (d : WireData),
      (((dispatchFrame (part4Handlers now) ⟨"complete", d⟩ st).1).phase = .str "complete") ∧
      (((dispatchFrame (part4Handlers now) ⟨"error", d⟩ st).1).phase = .str "error") ∧
      (st.phase = .str "complete" →
        ((dispatchFrame (part4Handlers now)
          ⟨"status", .parsed "x" (.obj [("phase", .str "init")])⟩ st).1).phase
          = .str "init") := by
  intro st now d
  refine ⟨?_, ?_, fun _ => rfl⟩ <;>
    cases d with
    | parsed t v =>
      cases v <;>
        simp [dispatchFrame, part4Handlers, completeHandler, errorHandler, Value.isNull,
          setPhase, setIsTriaging, addStreamEvent, WireData.parse, WireData.text,
          Value.getField, events, jsOr]
    | unparsable t =>
      simp [dispatchFrame, part4Handlers, completeHandler, errorHandler, Value.isNull,
        setPhase, setIsTriaging, addStreamEvent, WireData.parse, WireData.text,
        Value.getField, events, jsOr]

/-- Claim C3, witness: a complete frame with unparsable payload still forces
phase complete, and from phase complete a status frame labelled init moves
the phase to init. -/
theorem C3_witness :
    ((dispatchFrame (part4Handlers 0) ⟨"complete", .unparsable "x"⟩ initialState).1).phase
      = .str "complete" ∧
    ((dispatchFrame (part4Handlers 0)
        ⟨"status", .parsed "x" (.obj [("phase", .str "init")])⟩
        { initialState with phase := .str "complete" }).1).phase = .str "init" :=
  ⟨(C3_theorem initialState 0 (.unparsable "x")).1,
   (C3_theorem { initialState with phase := .str "complete" } 0 (.unparsable "x")).2.2 rfl⟩

/-- Claim C4, counterexample: when the payload parses but the handler
throws, the catch block invokes the same handler a second time with the raw
text, so one frame causes two handler invocations, refuting the
exactly-once guarantee. -/
theorem C4_counterexample : ¬ claimC4 := by
  intro hcl
  have hc := hcl (fun _ => some throwingHandler) ⟨"status", .parsed "x" (.obj [])⟩
      throwingHandler 0 (by simp [events]) rfl
  have hr : ((dispatchFrame (fun _ => some throwingHandler)
      ⟨"status", .parsed "x" (.obj [])⟩ 0).2).length = 2 := rfl
  rw [hr] at hc
  simp at hc

/-- Claim C4, amended: for a frame whose event type has a registered
handler, the handler is invoked with the parsed payload exactly once when
the parse succeeds and the handler returns normally; when the parse
succeeds but the handler throws, it is invoked a second time with the raw
text; when the parse fails, it is invoked once with the raw text; and
dispatching a frame list always processes every frame in order, so a
throwing handler never prevents subsequent frames from being dispatched. -/
theorem C4_theorem {σ : Type} :
    ∀ (H : String → Option (Handler σ)) (f : Frame) (h : Handler σ) (st : σ)
      (fs : List Frame),
      f.eventType ∈ events → H f.eventType = some h →
      ((dispatchFrame H f st).2 =
        match f.data.parse with
        | some v =>
          if (h (.json v) st).2 then [.json v, .raw f.data.text] else [.json v]
        | none => [.raw f.data.text]) ∧
      dispatch H (f :: fs) st =
        ((dispatch H fs (dispatchFrame H f st).1).1,
          (dispatchFrame H f st).2 ++ (dispatch H fs (dispatchFrame H f st).1).2) := by
  intro H f h st fs hmem hH
  constructor
  · cases f with
    | mk evt d =>
      cases d with
      | parsed t v =>
        simp [dispatchFrame, hH, hmem, WireData.parse, WireData.text]
        split <;> simp
      | unparsable t =>
        simp [dispatchFrame, hH, hmem, WireData.parse, WireData.text]
  · rfl

/-- Claim C4, witness: a throwing handler on a parsed status frame is
invoked twice (parsed value, then raw text), and a following frame is still
dispatched afterwards. -/
theorem C4_witness :
    ((dispatchFrame (fun _ => some throwingHandler) ⟨"status", .parsed "x" (.obj [])⟩ 0).2 =
      [.json (.obj []), .raw "x"]) ∧
    dispatch (fun _ => some throwingHandler)
        [⟨"status", .parsed "x" (.obj [])⟩, ⟨"complete", .unparsable "y"⟩] 0 =
      (3, [.json (.obj []), .raw "x", .raw "y"]) := by
  have h := C4_theorem (fun _ => some throwingHandler) ⟨"status", .parsed "x" (.obj [])⟩
      throwingHandler 0 [⟨"complete", .unparsable "y"⟩] (by simp [events]) rfl
  refine ⟨?_, ?_⟩
  · rw [h.1]; rfl
  · rw [h.2]; rfl

/-- Claim C5: when the payload of a recognized, handled frame fails to
parse, the frame is not dropped — the handler is invoked with the raw
unparsed text, and the remaining frames are dispatched from the resulting
state exactly as usual. -/
theorem C5_theorem {σ : Type} :
    ∀ (H : String → Option (Handler σ)) (f : Frame) (h : Handler σ) (st : σ)
      (fs : List Frame),
      f.eventType ∈ events → H f.eventType = some h → f.data.parse = none →
      dispatchFrame H f st = ((h (.raw f.data.text) st).1, [.raw f.data.text]) ∧
      dispatch H (f :: fs) st =
        ((dispatch H fs (h (.raw f.data.text) st).1).1,
          .raw f.data.text :: (dispatch H fs (h (.raw f.data.text) st).1).2) := by
  intro H f h st fs hmem hH hp
  have h1 : dispatchFrame H f st = ((h (.raw f.data.text) st).1, [.raw f.data.text]) := by
    simp [dispatchFrame, hH, hmem, hp]
  refine ⟨h1, ?_⟩
  show (let r := dispatchFrame H f st
        let r2 := dispatch H fs r.1
        (r2.1, r.2 ++ r2.2)) = _
  rw [h1]
  simp

/-- Claim C5, witness: a specialist_opinion frame with unparsable payload
reaches its handler as raw text and the raw value lands in specialists. -/
theorem C5_witness :
    dispatchFrame (part4Handlers 0) ⟨"specialist_opinion", .unparsable "oops"⟩ initialState
      = ((specialistHandler 0 (.raw "oops") initialState).1, [.raw "oops"]) ∧
    (dispatch (part4Handlers 0)
        [⟨"specialist_opinion", .unparsable "oops"⟩] initialState).1.specialists
      = [.raw "oops"] := by
  have h := C5_theorem (part4Handlers 0) ⟨"specialist_opinion", .unparsable "oops"⟩
      (specialistHandler 0) initialState [] (by simp [events]) rfl rfl
  refine ⟨h.1, ?_⟩
  rw [h.2]
  rfl

/-- Claim C6: the dispatcher recognizes exactly the seven listed event
types, and a frame whose type is outside that list, or whose type has no
registered handler, leaves the state unchanged, causes no handler
invocation, and dispatch of the remaining frames continues as if the frame
had not been there. -/
theorem C6_theorem {σ : Type} :
    events = ["status", "classification_result", "specialist_opinion",
        "other_specialty_scores", "cmo_verdict", "complete", "error"] ∧
    ∀ (H : String → Option (Handler σ)) (f : Frame) (st : σ) (fs : List Frame),
      (f.eventType ∉ events ∨ H f.eventType = none) →
      dispatchFrame H f st = (st, []) ∧
      dispatch H (f :: fs) st = dispatch H fs st := by
  refine ⟨rfl, ?_⟩
  intro H f st fs hf
  have h1 : dispatchFrame H f st = (st, []) := by
    rcases hf with hf | hf
    · simp [dispatchFrame, hf]
    · simp [dispatchFrame, hf]
  refine ⟨h1, ?_⟩
  show (let r := dispatchFrame H f st
        let r2 := dispatch H fs r.1
        (r2.1, r.2 ++ r2.2)) = _
  rw [h1]
  simp

/-- Claim C6, witness: a frame with the unrecognized type heartbeat is
silently ignored against the real handler set. -/
theorem C6_witness :
    dispatchFrame (part4Handlers 0) ⟨"heartbeat", .parsed "x" (.obj [])⟩ initialState
      = (initialState, []) ∧
    dispatch (part4Handlers 0) [⟨"heartbeat", .parsed "x" (.obj [])⟩] initialState
      = dispatch (part4Handlers 0) [] initialState :=
  C6_theorem.2 (part4Handlers 0) ⟨"heartbeat", .parsed "x" (.obj [])⟩ initialState []
    (Or.inl (by simp [events]))

/-- Claim C7: a transport failure invokes the error handler with the
synthetic payload carrying the fixed message, exactly as a wire error frame
would, then closes the source; the session ends at phase error with
isTriaging false, the synthetic error is appended to the log, and the
derived terminated flag is true. -/
theorem C7_theorem :
    ∀ (st : TriageState) (now : Nat),
      onError (part4Handlers now) st
        = ((errorHandler now (.json syntheticErrorPayload) st).1, true) ∧
      ((onError (part4Handlers now) st).1).phase = .str "error" ∧
      ((onError (part4Handlers now) st).1).isTriaging = false ∧
      ((onError (part4Handlers now) st).1).streamEvents
        = st.streamEvents ++ [⟨"error", some (.str "SSE connection lost"), none, now⟩] ∧
      ((onError (part4Handlers now) st).1).terminated = true := by
  intro st now
  refine ⟨rfl, rfl, rfl, ?_, ?_⟩
  · simp [onError, part4Handlers, errorHandler, syntheticErrorPayload, Value.getField,
      JsonVal.getField, lookupField, jsOr, truthy, addStreamEvent, setIsTriaging, setPhase]
  · simp [onError, part4Handlers, errorHandler, syntheticErrorPayload, Value.getField,
      JsonVal.getField, lookupField, jsOr, truthy, addStreamEvent, setIsTriaging, setPhase,
      TriageState.terminated]

/-- Claim C8, counterexample: a specialist_opinion frame whose payload
parses to JSON null is appended twice — the handler stores the null, then
throws while formatting the log message, and the catch block re-invokes it
with the raw text, which is stored as well — so one frame yields two
opinions. -/
theorem C8_counterexample : ¬ claimC8 := by
  intro h
  have hc := h [.parsed "null" .null] 0
  have hr : (runPart4 ([WireData.parsed "null" .null].map specFrame) 0
      initialState).specialists = [.json .null, .raw "null"] := rfl
  rw [hr] at hc
  simp [arrivedValue] at hc

theorem specialist_step (now : Nat) (d : WireData) (st : TriageState)
    (h : d.parse ≠ some .null) :
    ((dispatchFrame (part4Handlers now) (specFrame d) st).1).specialists
      = st.specialists ++ [arrivedValue d] := by
  cases d with
  | parsed t v =>
    cases v with
    | null => exact absurd rfl h
    | bool b =>
      simp [dispatchFrame, part4Handlers, specFrame, specialistHandler, addSpecialist,
        addStreamEvent, WireData.parse, WireData.text, events, arrivedValue]
    | num n =>
      simp [dispatchFrame, part4Handlers, specFrame, specialistHandler, addSpecialist,
        addStreamEvent, WireData.parse, WireData.text, events, arrivedValue]
    | str s =>
      simp [dispatchFrame, part4Handlers, specFrame, specialistHandler, addSpecialist,
        addStreamEvent, WireData.parse, WireData.text, events, arrivedValue]
    | arr xs =>
      simp [dispatchFrame, part4Handlers, specFrame, specialistHandler, addSpecialist,
        addStreamEvent, WireData.parse, WireData.text, events, arrivedValue]
    | obj fs =>
      simp [dispatchFrame, part4Handlers, specFrame, specialistHandler, addSpecialist,
        addStreamEvent, WireData.parse, WireData.text, events, arrivedValue]
  | unparsable t =>
    simp [dispatchFrame, part4Handlers, specFrame, specialistHandler, addSpecialist,
      addStreamEvent, WireData.parse, WireData.text, events, arrivedValue]

/-- Claim C8, amended: for a sequence of specialist_opinion frames none of
whose payloads parses to JSON null, each frame appends exactly one entry —
the parsed payload, or the raw text when parsing failed — so specialists
grows by the payload list in exact arrival order and nothing is ever
overwritten. -/
theorem C8_theorem :
    ∀ (ds : List WireData) (now : Nat) (st : TriageState),
      (∀ d ∈ ds, d.parse ≠ some .null) →
      (runPart4 (ds.map specFrame) now st).specialists
        = st.specialists ++ ds.map arrivedValue := by
  intro ds
  induction ds with
  | nil => intro now st _; simp [runPart4]
  | cons d ds ih =>
    intro now st hds
    have hd : d.parse ≠ some .null := hds d (List.mem_cons_self d ds)
    have hrest : ∀ x ∈ ds, x.parse ≠ some .null :=
      fun x hx => hds x (List.mem_cons_of_mem d hx)
    simp only [List.map, runPart4]
    rw [ih (now + 1) _ hrest, specialist_step now d st hd]
    simp

/-- Claim C8, witness: two specialist frames, one parsed and one
unparsable, land in specialists in arrival order. -/
theorem C8_witness :
    (runPart4 ([WireData.parsed "a" (.obj [("specialty", .str "cardiology")]),
        WireData.unparsable "oops"].map specFrame) 0 initialState).specialists
      = [.json (.obj [("specialty", .str "cardiology")]), .raw "oops"] := by
  have h := C8_theorem
      [WireData.parsed "a" (.obj [("specialty", .str "cardiology")]),
        WireData.unparsable "oops"] 0 initialState
      (by intro d hd; fin_cases hd <;> simp [WireData.parse])
  rw [h]
  rfl

/-- Claim C9: every store setter mutates exactly its own target field —
setClassification, setOtherSpecialty, setVerdict, setSessionId and
setPatientData overwrite their field with the given value, addSpecialist
and addStreamEvent append to their sequence, setPhase and setIsTriaging
overwrite their scalar — and each leaves all eight other fields of the
session state unchanged. -/
theorem C9_theorem :
    ∀ (st : TriageState) (c s o v : Value) (e : EventInput) (now : Nat)
      (p pd : JsonVal) (b : Bool) (id : String),
      ((setClassification c st).classification = some c ∧
        (setClassification c st).specialists = st.specialists ∧
        (setClassification c st).otherSpecialty = st.otherSpecialty ∧
        (setClassification c st).verdict = st.verdict ∧
        (setClassification c st).streamEvents = st.streamEvents ∧
        (setClassification c st).phase = st.phase ∧
        (setClassification c st).isTriaging = st.isTriaging ∧
        (setClassification c st).sessionId = st.sessionId ∧
        (setClassification c st).patientData = st.patientData) ∧
      ((addSpecialist s st).specialists = st.specialists ++ [s] ∧
        (addSpecialist s st).classification = st.classification ∧
        (addSpecialist s st).otherSpecialty = st.otherSpecialty ∧
        (addSpecialist s st).verdict = st.verdict ∧
        (addSpecialist s st).streamEvents = st.streamEvents ∧
        (addSpecialist s st).phase = st.phase ∧
        (addSpecialist s st).isTriaging = st.isTriaging ∧
        (addSpecialist s st).sessionId = st.sessionId ∧
        (addSpecialist s st).patientData = st.patientData) ∧
      ((setOtherSpecialty o st).otherSpecialty = some o ∧
        (setOtherSpecialty o st).classification = st.classification ∧
        (setOtherSpecialty o st).specialists = st.specialists ∧
        (setOtherSpecialty o st).verdict = st.verdict ∧
        (setOtherSpecialty o st).streamEvents = st.streamEvents ∧
        (setOtherSpecialty o st).phase = st.phase ∧
        (setOtherSpecialty o st).isTriaging = st.isTriaging ∧
        (setOtherSpecialty o st).sessionId = st.sessionId ∧
        (setOtherSpecialty o st).patientData = st.patientData) ∧
      ((setVerdict v st).verdict = some v ∧
        (setVerdict v st).classification = st.classification ∧
        (setVerdict v st).specialists = st.specialists ∧
        (setVerdict v st).otherSpecialty = st.otherSpecialty ∧
        (setVerdict v st).streamEvents = st.streamEvents ∧
        (setVerdict v st).phase = st.phase ∧
        (setVerdict v st).isTriaging = st.isTriaging ∧
        (setVerdict v st).sessionId = st.sessionId ∧
        (setVerdict v st).patientData = st.patientData) ∧
      ((addStreamEvent e now st).streamEvents
          = st.streamEvents ++ [⟨e.type, e.message, e.phase, now⟩] ∧
        (addStreamEvent e now st).classification = st.classification ∧
        (addStreamEvent e now st).specialists = st.specialists ∧
        (addStreamEvent e now st).otherSpecialty = st.otherSpecialty ∧
        (addStreamEvent e now st).verdict = st.verdict ∧
        (addStreamEvent e now st).phase = st.phase ∧
        (addStreamEvent e now st).isTriaging = st.isTriaging ∧
        (addStreamEvent e now st).sessionId = st.sessionId ∧
        (addStreamEvent e now st).patientData = st.patientData) ∧
      ((setPhase p st).phase = p ∧
        (setPhase p st).classification = st.classification ∧
        (setPhase p st).specialists = st.specialists ∧
        (setPhase p st).otherSpecialty = st.otherSpecialty ∧
        (setPhase p st).verdict = st.verdict ∧
        (setPhase p st).streamEvents = st.streamEvents ∧
        (setPhase p st).isTriaging = st.isTriaging ∧
        (setPhase p st).sessionId = st.sessionId ∧
        (setPhase p st).patientData = st.patientData) ∧
      ((setIsTriaging b st).isTriaging = b ∧
        (setIsTriaging b st).classification = st.classification ∧
        (setIsTriaging b st).specialists = st.specialists ∧
        (setIsTriaging b st).otherSpecialty = st.otherSpecialty ∧
        (setIsTriaging b st).verdict = st.verdict ∧
        (setIsTriaging b st).streamEvents = st.streamEvents ∧
        (setIsTriaging b st).phase = st.phase ∧
        (setIsTriaging b st).sessionId = st.sessionId ∧
        (setIsTriaging b st).patientData = st.patientData) ∧
      ((setSessionId id st).sessionId = some id ∧
        (setSessionId id st).classification = st.classification ∧
        (setSessionId id st).specialists = st.specialists ∧
        (setSessionId id st).otherSpecialty = st.otherSpecialty ∧
        (setSessionId id st).verdict = st.verdict ∧
        (setSessionId id st).streamEvents = st.streamEvents ∧
        (setSessionId id st).phase = st.phase ∧
        (setSessionId id st).isTriaging = st.isTriaging ∧
        (setSessionId id st).patientData = st.patientData) ∧
      ((setPatientData pd st).patientData = some pd ∧
        (setPatientData pd st).classification = st.classification ∧
        (setPatientData pd st).specialists = st.specialists ∧
        (setPatientData pd st).otherSpecialty = st.otherSpecialty ∧
        (setPatientData pd st).verdict = st.verdict ∧
        (setPatientData pd st).streamEvents = st.streamEvents ∧
        (setPatientData pd st).phase = st.phase ∧
        (setPatientData pd st).isTriaging = st.isTriaging ∧
        (setPatientData pd st).sessionId = st.sessionId) := by
  intro st c s o v e now p pd b id
  simp [setClassification, addSpecialist, setOtherSpecialty, setVerdict,
    addStreamEvent, setPhase, setIsTriaging, setSessionId, setPatientData]

/-- Claim C10: a status frame whose parsed payload lacks a truthy phase
field sets the session phase to the string processing — which has no
position in the six-phase vocabulary — while still appending exactly one
status entry to the stream-event log. -/
theorem C10_theorem :
    ∀ (st : TriageState) (now : Nat) (t : String) (v : JsonVal),
      truthyOpt (v.getField "phase") = false →
      ((dispatchFrame (part4Handlers now) ⟨"status", .parsed t v⟩ st).1).phase
        = .str "processing" ∧
      phaseIdx (.str "processing") = none ∧
      (∃ ev : StreamEvent,
        ((dispatchFrame (part4Handlers now) ⟨"status", .parsed t v⟩ st).1).streamEvents
          = st.streamEvents ++ [ev] ∧ ev.type = "status" ∧ ev.ts = now) := by
  intro st now t v hv
  by_cases hn : v = JsonVal.null
  · subst hn
    exact ⟨rfl, rfl, ⟨"status", none, none, now⟩, rfl, rfl, rfl⟩
  · refine ⟨?_, rfl, ⟨"status", Value.getField (.json v) "message",
        Value.getField (.json v) "phase", now⟩, ?_, rfl, rfl⟩
    · simp [dispatchFrame, part4Handlers, statusHandler, isNull_json_of_ne hn,
        setPhase, addStreamEvent, WireData.parse, WireData.text, events,
        Value.getField, jsOr_of_not_truthy hv]
    · simp [dispatchFrame, part4Handlers, statusHandler, isNull_json_of_ne hn,
        setPhase, addStreamEvent, WireData.parse, WireData.text, events,
        Value.getField]

/-- Claim C10, witness: a status payload with only a message field drives
the phase to the string processing. -/
theorem C10_witness :
    truthyOpt ((JsonVal.obj [("message", .str "working")]).getField "phase") = false ∧
    ((dispatchFrame (part4Handlers 3)
        ⟨"status", .parsed "x" (.obj [("message", .str "working")])⟩ initialState).1).phase
      = .str "processing" :=
  ⟨rfl, (C10_theorem initialState 3 "x" (.obj [("message", .str "working")]) rfl).1⟩

end Triage
